import Mathlib

set_option linter.all false

/-!
Shallow embedding of the change-reconciliation and optimistic-concurrency
engine of `src/lib/editorFileSystem.ts`:

* the `useFile` hook (File Session: `load`, `save`, `updateContent`,
  `reload`, the autosave debounce timer);
* the `useFileWatcher` hook (Change Transport: `cleanup`, `startPolling`,
  the SSE `onerror` handler, the poll completion handler);
* the `useFileTree` hook (Tree Cache: the `refresh` completion handler).

Asynchronous completions are modelled by making each `await` boundary
explicit: the code after an `await` becomes a function from the state at
completion time (plus the values captured by the closure at issue time)
to the new state, and interleavings are explicit event traces.
React `useState` setters are modelled as functional record updates.
-/

-- ===========================================================================
-- Response types (the fields of the TS interfaces that the hooks consume)
-- ===========================================================================

/-- The fields of the TS `ReadFileResponse` used by `useFile`. -/
structure ReadFileResponse where
  success : Bool
  content : Option String
  checksum : Option String
  error : Option String
deriving DecidableEq

/-- The fields of the TS `WriteFileResponse` used by `useFile.save`.
`conflict` is optional in TS; an absent value is falsy, modelled `false`. -/
structure WriteFileResponse where
  success : Bool
  checksum : Option String
  error : Option String
  conflict : Bool
deriving DecidableEq

/-- The TS `FileChangeEvent`. -/
structure FileChangeEvent where
  type : String
  path : String
  old_path : Option String
  checksum : Option String
  timestamp : String
deriving DecidableEq

/-- The fields of the TS `PollChangesResponse` used by `useFileWatcher`. -/
structure PollChangesResponse where
  success : Bool
  changes : List FileChangeEvent
  current_checksum : String
  timestamp : String
  error : Option String
deriving DecidableEq

/-- The TS `FileTreeNode` (the fields the cache stores; `expanded`,
`size`, `modified_at`, `language` play no role in the cache logic). -/
inductive FileTreeNode where
  | node (name : String) (path : String) (children : List FileTreeNode)

/-- The fields of the TS `FileTreeResponse` used by `useFileTree.refresh`. -/
structure FileTreeResponse where
  success : Bool
  tree : Option FileTreeNode
  checksum : Option String
  timestamp : String
  error : Option String

-- ===========================================================================
-- File Session (the `useFile` hook)
-- ===========================================================================

/-- The state held by the `useFile` hook: the `content`, `originalContent`,
`checksum`, `loading`, `saving`, `error`, `isDirty` state variables, the
`metadata` state, and the pending autosave timer (`autoSaveTimerRef`),
modelled as the absolute time at which the scheduled timeout would fire
(`none` when no timeout is pending). -/
structure FileSessionState where
  content : String
  originalContent : String
  checksum : String
  loading : Bool
  saving : Bool
  error : Option String
  isDirty : Bool
  metadata : Option ReadFileResponse
  autoSaveTimer : Option Nat
deriving DecidableEq

/-- The error message `save` sets on a conflict
(`setError('File was modified externally. Please reload.')`). -/
def conflictMessage : String := "File was modified externally. Please reload."

/-- `useFile.load`, given the `readFile` result: sets `loading := true` and
`error := null`, then on `result.success && result.content !== undefined`
adopts content, originalContent, checksum, metadata and clears `isDirty`,
otherwise sets the error; finally clears `loading`. -/
def load (s : FileSessionState) (result : ReadFileResponse) : FileSessionState :=
  let s1 := { s with loading := true, error := none }
  let s2 := match result.success, result.content with
    | true, some c =>
        { s1 with content := c, originalContent := c,
                  checksum := result.checksum.getD "",
                  metadata := some result, isDirty := false }
    | _, _ => { s1 with error := some (result.error.getD "Failed to load file") }
  { s2 with loading := false }

/-- `useFile.reload`, given the `readFile` result: only on
`result.success && result.content !== undefined` does it adopt the fetched
content, clear `isDirty` and clear the error; otherwise it changes nothing. -/
def reload (s : FileSessionState) (result : ReadFileResponse) : FileSessionState :=
  match result.success, result.content with
  | true, some c =>
      { s with content := c, originalContent := c,
               checksum := result.checksum.getD "",
               isDirty := false, error := none }
  | _, _ => s

/-- The code of `useFile.save` after `await updateFile(...)` resolves.
`capturedContent` is the `content` the `save` closure captured when the
request was issued; `s` is the session state at completion time. On
success the closure sets `originalContent` to the captured content (not
the current one), adopts the returned checksum and clears `isDirty`; on
conflict it only sets the error message; on other failure it sets the
error; in every case it finally clears `saving`. -/
def saveApply (s : FileSessionState) (capturedContent : String)
    (result : WriteFileResponse) : FileSessionState :=
  let s2 :=
    if result.success then
      { s with originalContent := capturedContent,
               checksum := result.checksum.getD "", isDirty := false }
    else if result.conflict then
      { s with error := some conflictMessage }
    else
      { s with error := some (result.error.getD "Failed to save file") }
  { s2 with saving := false }

/-- `useFile.save` run to completion with no interleaved operation:
if `!isDirty` it returns `{ success: true }` without contacting the
remote; otherwise it sets `saving := true`, `error := null`, sends the
current content together with the session's checksum
(`updateFile(filePath, content, checksum)`, modelled by the `remote`
function) and applies the result. -/
def save (s : FileSessionState) (remote : String → String → WriteFileResponse) :
    FileSessionState × WriteFileResponse :=
  if s.isDirty then
    let s1 := { s with saving := true, error := none }
    let result := remote s.content s.checksum
    (saveApply s1 s.content result, result)
  else
    (s, { success := true, checksum := none, error := none, conflict := false })

/-- `useFile.updateContent` at time `now`: sets the content, recomputes
`isDirty` as `newContent !== originalContent`, and — when autosave is on
and the new content differs from `originalContent` — clears any pending
timeout and schedules a new one `autoSaveDelay` later. A non-dirty edit
leaves a pending timeout in place, exactly as the source does. -/
def updateContent (autoSave : Bool) (autoSaveDelay : Nat) (now : Nat)
    (s : FileSessionState) (newContent : String) : FileSessionState :=
  let s1 := { s with content := newContent,
                     isDirty := newContent != s.originalContent }
  if autoSave && (newContent != s.originalContent) then
    { s1 with autoSaveTimer := some (now + autoSaveDelay) }
  else s1

/-- A pending autosave timeout fires as soon as real time reaches its
scheduled instant: if the slot holds a fire time `≤ t`, the timeout runs
(invoking `save()`; the invocation time is recorded) and the slot empties. -/
def fireBefore (t : Nat) (s : FileSessionState) : FileSessionState × List Nat :=
  match s.autoSaveTimer with
  | some tf => if tf ≤ t then ({ s with autoSaveTimer := none }, [tf]) else (s, [])
  | none => (s, [])

/-- Runs a chronological sequence of `(time, newContent)` edits through
`updateContent`, letting the pending autosave timeout fire whenever its
scheduled instant is reached, and finally letting any still-pending
timeout fire. Returns the final state and the list of times at which the
autosave timeout invoked `save()`. -/
def editSequenceFires (autoSave : Bool) (autoSaveDelay : Nat) :
    List (Nat × String) → FileSessionState → FileSessionState × List Nat
  | [], s =>
      match s.autoSaveTimer with
      | some tf => ({ s with autoSaveTimer := none }, [tf])
      | none => (s, [])
  | (t, c) :: rest, s =>
      let fb := fireBefore t s
      let r := editSequenceFires autoSave autoSaveDelay rest
        (updateContent autoSave autoSaveDelay t fb.1 c)
      (r.1, fb.2 ++ r.2)

-- ===========================================================================
-- Remote File Service (external collaborator)
-- ===========================================================================

/-- Modelled from the spec: the Remote File Service's stored state for one
file — its content and its current fingerprint (checksum). The service
itself (the `/api/editor` handlers) is not part of the sources. -/
structure RemoteFile where
  content : String
  checksum : String
deriving DecidableEq

/-- Modelled from the spec: the Remote File Service's
`UpdateFile(path, content, expectedFingerprint) → fingerprint | conflict`
operation, whose handler is not part of the sources. It compares the
supplied fingerprint with the stored one; on mismatch it reports a
conflict and leaves the file untouched, otherwise it stores the new
content under a fresh fingerprint (`fresh`), which it returns. -/
def remoteUpdate (rf : RemoteFile) (newContent : String) (expected : String)
    (fresh : String) : RemoteFile × WriteFileResponse :=
  if expected = rf.checksum then
    ({ content := newContent, checksum := fresh },
     { success := true, checksum := some fresh, error := none, conflict := false })
  else
    (rf, { success := false, checksum := none,
           error := some "Checksum mismatch", conflict := true })

-- ===========================================================================
-- Change Transport (the `useFileWatcher` hook)
-- ===========================================================================

/-- The TS `WatcherMode` (`sse | poll | auto`). -/
inductive WatcherMode where
  | sse
  | poll
  | auto
deriving DecidableEq

/-- The state held by the `useFileWatcher` hook: the `connected` and
`usingSSE` state variables, whether the `EventSource` is open
(`eventSourceRef` non-null), whether the poll interval is registered
(`pollIntervalRef` non-null), and the polling cursor refs
(`lastChecksumRef`, `lastTimestampRef`). -/
structure WatcherState where
  connected : Bool
  usingSSE : Bool
  eventSourceOpen : Bool
  pollTimerActive : Bool
  lastChecksum : String
  lastTimestamp : String
deriving DecidableEq

/-- One callback delivery to the hook's caller: `onFileChange`,
`onError` or `onConnectionChange`. -/
inductive Callback where
  | fileChange (e : FileChangeEvent)
  | error (msg : String)
  | connectionChange (connected : Bool)
deriving DecidableEq

/-- `useFileWatcher.cleanup`: closes and nulls the `EventSource`, clears
and nulls the poll interval. The cursor refs and `connected` are not
touched. -/
def cleanup (s : WatcherState) : WatcherState :=
  { s with eventSourceOpen := false, pollTimerActive := false }

/-- The state effect of `useFileWatcher.startPolling`: it first runs
`cleanup`, then registers the poll interval (the immediate first `poll()`
call and the interval ticks are separate trace events). -/
def startPolling (s : WatcherState) : WatcherState :=
  { cleanup s with pollTimerActive := true }

/-- The `eventSource.onopen` handler: `setConnected(true)`,
`setUsingSSE(true)`, `onConnectionChange?.(true)`. -/
def handleSSEOpen (s : WatcherState) : WatcherState × List Callback :=
  ({ s with connected := true, usingSSE := true }, [Callback.connectionChange true])

/-- The `eventSource.onerror` handler: `setConnected(false)` and
`onConnectionChange?.(false)` first; then, in `auto` mode, close the
source and fall back to `startPolling()` with no error surfaced, while in
any other mode report `onError?.('SSE connection failed')` instead. -/
def handleSSEError (mode : WatcherMode) (s : WatcherState) :
    WatcherState × List Callback :=
  let s1 := { s with connected := false }
  if mode = WatcherMode.auto then
    (startPolling { s1 with eventSourceOpen := false, usingSSE := false },
     [Callback.connectionChange false])
  else
    (s1, [Callback.connectionChange false, Callback.error "SSE connection failed"])

/-- The completion of one `poll()` round trip: either the
`pollChanges` promise resolved with a response, or it threw. -/
inductive PollOutcome where
  | resp (r : PollChangesResponse)
  | thrown (msg : String)

/-- The code of `useFileWatcher.startPolling`'s inner `poll` after
`await pollChanges(...)`: on a successful response, set
`connected := true`, report `onConnectionChange?.(true)`, advance the
cursor refs to the response's `current_checksum`/`timestamp`, and deliver
each change through `onFileChange`; on an unsuccessful response, only
report `onError`; on a thrown error, set `connected := false` and report
`onConnectionChange?.(false)` then `onError`. -/
def handlePollComplete (o : PollOutcome) (s : WatcherState) :
    WatcherState × List Callback :=
  match o with
  | PollOutcome.resp r =>
      if r.success then
        ({ s with connected := true,
                  lastChecksum := r.current_checksum,
                  lastTimestamp := r.timestamp },
         Callback.connectionChange true :: r.changes.map Callback.fileChange)
      else
        (s, [Callback.error (r.error.getD "Polling failed")])
  | PollOutcome.thrown m =>
      ({ s with connected := false },
       [Callback.connectionChange false, Callback.error m])

/-- `pollChanges` is sent `since_timestamp`/`last_checksum` as
`ref.current || undefined`: the empty string becomes an absent field. -/
def orUndefined (s : String) : Option String :=
  if s = "" then none else some s

/-- The cursor a `poll()` issued in state `s` sends with its request. -/
def sentOf (s : WatcherState) : Option String × Option String :=
  (orUndefined s.lastTimestamp, orUndefined s.lastChecksum)

/-- One scheduler event for the polling side of a watcher: a poll tick
fires (issuing request number `i` for the `i`-th fire), a previously
issued tick's round trip completes, the watcher is torn down
(`cleanup`), or the SSE source delivers a `file_changed` frame. -/
inductive WatchEvent where
  | fire
  | complete (i : Nat)
  | teardown
  | sseChange (e : FileChangeEvent)

/-- A watcher execution: the hook state, the cursor each issued tick sent
(`sent.get? i` is tick `i`'s request cursor), and every callback
delivered so far. -/
structure WatchRun where
  state : WatcherState
  sent : List (Option String × Option String)
  emitted : List Callback
deriving DecidableEq

/-- Trace semantics. A `fire` only happens while the interval is
registered (a cleared interval no longer ticks) and records the cursor
the issued request carries. A `complete i` runs the post-`await` poll
handler on the response `outcome i` unconditionally — the source has no
teardown guard after the `await`, so a late completion still runs.
A `teardown` runs `cleanup`. An SSE `file_changed` frame is delivered
(`onFileChange`) only while the source is open. -/
def watchStep (outcome : Nat → PollOutcome) (run : WatchRun) (e : WatchEvent) :
    WatchRun :=
  match e with
  | WatchEvent.fire =>
      if run.state.pollTimerActive then
        { run with sent := run.sent ++ [sentOf run.state] }
      else run
  | WatchEvent.complete i =>
      let sc := handlePollComplete (outcome i) run.state
      { run with state := sc.1, emitted := run.emitted ++ sc.2 }
  | WatchEvent.teardown => { run with state := cleanup run.state }
  | WatchEvent.sseChange e =>
      if run.state.eventSourceOpen then
        { run with emitted := run.emitted ++ [Callback.fileChange e] }
      else run

/-- Runs a trace of watcher events from an initial hook state. -/
def watchRun (outcome : Nat → PollOutcome) (init : WatcherState)
    (events : List WatchEvent) : WatchRun :=
  events.foldl (watchStep outcome) { state := init, sent := [], emitted := [] }

/-- The sequential (non-overlapping) schedule of `n` poll ticks: tick `i`
fires, then its round trip completes before tick `i + 1` fires. -/
def seqTrace : Nat → List WatchEvent
  | 0 => []
  | n + 1 => seqTrace n ++ [WatchEvent.fire, WatchEvent.complete n]

/-- The watcher state after the first `n` poll completions have been
applied in issue order. -/
def pollStateAfter (outcome : Nat → PollOutcome) (init : WatcherState) :
    Nat → WatcherState
  | 0 => init
  | n + 1 => (handlePollComplete (outcome n) (pollStateAfter outcome init n)).1

/-- Whether a poll round trip failed (unsuccessful response or thrown). -/
def pollFailed (o : PollOutcome) : Bool :=
  match o with
  | PollOutcome.resp r => !r.success
  | PollOutcome.thrown _ => true

-- ===========================================================================
-- Tree Cache (the `useFileTree` hook)
-- ===========================================================================

/-- The state held by the `useFileTree` hook: the `tree`, `loading`,
`error`, `checksum` state variables and the `checksumRef` ref. -/
structure TreeState where
  tree : Option FileTreeNode
  loading : Bool
  error : Option String
  checksum : String
  checksumRef : String

/-- The code of `useFileTree.refresh` after `await getFileTree(...)`
resolves: on `result.success && result.tree` it replaces the cached tree,
checksum and checksum ref and clears the error, otherwise it sets the
error; finally it clears `loading`. There is no request sequence number:
whichever completion runs later simply overwrites. -/
def applyRefresh (st : TreeState) (result : FileTreeResponse) : TreeState :=
  let st1 := match result.success, result.tree with
    | true, some t =>
        { st with tree := some t,
                  checksum := result.checksum.getD "",
                  checksumRef := result.checksum.getD "",
                  error := none }
    | _, _ => { st with error := some (result.error.getD "Failed to load file tree") }
  { st1 with loading := false }

-- ===========================================================================
-- Concrete example states (used by witnesses and counterexamples)
-- ===========================================================================

/-- A loaded session for `/a.txt` with one unsaved edit: content
`"hi there"`, last-saved `"hi"`, fingerprint `"c1"`, dirty. -/
def sessionHi : FileSessionState :=
  { content := "hi there", originalContent := "hi", checksum := "c1",
    loading := false, saving := false, error := none, isDirty := true,
    metadata := none, autoSaveTimer := none }

/-- The remote file as the session last read it: content `"hi"`,
fingerprint `"c1"`. -/
def remoteHi : RemoteFile := { content := "hi", checksum := "c1" }

/-- A dirty session whose last save was rejected with a conflict. -/
def conflictedSession : FileSessionState :=
  { content := "hi there", originalContent := "hi", checksum := "c1",
    loading := false, saving := false, error := some conflictMessage,
    isDirty := true, metadata := none, autoSaveTimer := none }

/-- The session that results when a `save()` of content `"b"` (captured
by the save closure) is still in flight while the user edits to `"c"`,
and the save response (fresh fingerprint `"c2"`) then resolves: the
completion adopts the captured `"b"` as last-saved and clears dirty even
though the current content is `"c"`. -/
def overlappedSaveResult : FileSessionState :=
  saveApply
    (updateContent false 1000 0
      { content := "b", originalContent := "a", checksum := "c1",
        loading := false, saving := true, error := none, isDirty := true,
        metadata := none, autoSaveTimer := none } "c")
    "b" ⟨true, some "c2", none, false⟩

/-- A watcher in polling mode, connected, with cursor `("t0", "c0")`. -/
def watcherPolling : WatcherState :=
  { connected := true, usingSSE := false, eventSourceOpen := false,
    pollTimerActive := true, lastChecksum := "c0", lastTimestamp := "t0" }

/-- A watcher with an open SSE channel. -/
def watcherSSE : WatcherState :=
  { connected := true, usingSSE := true, eventSourceOpen := true,
    pollTimerActive := false, lastChecksum := "", lastTimestamp := "" }

/-- A successful poll response with no changes, cursor `("t1", "c1")`. -/
def pollOk : PollChangesResponse :=
  { success := true, changes := [], current_checksum := "c1",
    timestamp := "t1", error := none }

/-- An unsuccessful poll response (`success: false`). -/
def pollFail : PollChangesResponse :=
  { success := false, changes := [], current_checksum := "",
    timestamp := "", error := some "boom" }

/-- Every poll round trip resolves with `pollOk`. -/
def alwaysPollOk : Nat → PollOutcome := fun _ => PollOutcome.resp pollOk

/-- A change event delivered by a poll response. -/
def lateChange : FileChangeEvent :=
  { type := "modified", path := "/a.txt", old_path := none,
    checksum := some "c9", timestamp := "t9" }

/-- A successful poll response carrying `lateChange`, cursor `("t9", "c9")`. -/
def latePollResp : PollChangesResponse :=
  { success := true, changes := [lateChange], current_checksum := "c9",
    timestamp := "t9", error := none }

/-- Every poll round trip resolves with `latePollResp`. -/
def alwaysLateResp : Nat → PollOutcome := fun _ => PollOutcome.resp latePollResp

/-- Tree fetched by the first Tree Cache refresh call. -/
def treeA : FileTreeNode := FileTreeNode.node "a" "/a" []

/-- Tree fetched by the second Tree Cache refresh call. -/
def treeB : FileTreeNode := FileTreeNode.node "b" "/b" []

/-- The first refresh call's response: `treeA`, fingerprint `"k1"`. -/
def treeRespA : FileTreeResponse :=
  { success := true, tree := some treeA, checksum := some "k1",
    timestamp := "t1", error := none }

/-- The second refresh call's response: `treeB`, fingerprint `"k2"`. -/
def treeRespB : FileTreeResponse :=
  { success := true, tree := some treeB, checksum := some "k2",
    timestamp := "t2", error := none }

/-- A Tree Cache before its first refresh completes. -/
def treeInit : TreeState :=
  { tree := none, loading := true, error := none, checksum := "", checksumRef := "" }

-- ===========================================================================
-- Theorems
-- ===========================================================================

/-- C1: if `save()` runs while dirty and the remote service reports a
fingerprint conflict, `save()` returns the conflict outcome (not success)
and leaves the session's current content, last-saved content, checksum
and dirty flag exactly as they were. In particular, after another
successful update moved the remote fingerprint to `f1`, a save carrying
the session's stale fingerprint (≠ `f1`) returns Conflict. -/
theorem c1_stale_save_returns_conflict
    (s : FileSessionState) (rf : RemoteFile) (cOther f1 f2 : String)
    (hdirty : s.isDirty = true) (hstale : s.checksum ≠ f1) :
    ∀ rf1 out, rf1 = (remoteUpdate rf cOther rf.checksum f1).1 →
      out = save s (fun c ck => (remoteUpdate rf1 c ck f2).2) →
      (remoteUpdate rf cOther rf.checksum f1).2.success = true ∧
      rf1.checksum = f1 ∧
      out.2.conflict = true ∧ out.2.success = false ∧
      out.1.content = s.content ∧ out.1.originalContent = s.originalContent ∧
      out.1.checksum = s.checksum ∧ out.1.isDirty = true := by
  intro rf1 out hrf1 hout
  subst hrf1 hout
  simp [remoteUpdate, save, saveApply, hdirty, hstale]

/-- C1 witness: the loaded session `sessionHi` (dirty, fingerprint `c1`)
saving against a remote state another update moved to fingerprint `c2`. -/
theorem c1_stale_save_returns_conflict_witness :
    sessionHi.isDirty = true ∧ sessionHi.checksum ≠ "c2" ∧
    (∀ rf1 out, rf1 = (remoteUpdate remoteHi "external" remoteHi.checksum "c2").1 →
      out = save sessionHi (fun c ck => (remoteUpdate rf1 c ck "c3").2) →
      (remoteUpdate remoteHi "external" remoteHi.checksum "c2").2.success = true ∧
      rf1.checksum = "c2" ∧
      out.2.conflict = true ∧ out.2.success = false ∧
      out.1.content = sessionHi.content ∧
      out.1.originalContent = sessionHi.originalContent ∧
      out.1.checksum = sessionHi.checksum ∧ out.1.isDirty = true) :=
  ⟨rfl, by decide,
   c1_stale_save_returns_conflict sessionHi remoteHi "external" "c2" "c3" rfl (by decide)⟩

/-- C4: with autosave enabled, three dirty-making edits, each issued
before the debounce timeout scheduled by the previous one has elapsed,
produce exactly one `save()` invocation, one configured delay after the
last edit. -/
theorem c4_three_fast_edits_one_save
    (delay t1 t2 t3 : Nat) (c1 c2 c3 : String) (s : FileSessionState)
    (h0 : s.autoSaveTimer = none)
    (h12 : t1 ≤ t2) (h23 : t2 ≤ t3)
    (hd1 : t2 < t1 + delay) (hd2 : t3 < t2 + delay)
    (hc1 : c1 ≠ s.originalContent) (hc2 : c2 ≠ s.originalContent)
    (hc3 : c3 ≠ s.originalContent) :
    (editSequenceFires true delay [(t1, c1), (t2, c2), (t3, c3)] s).2
      = [t3 + delay] := by
  simp [editSequenceFires, fireBefore, updateContent, h0, hc1, hc2, hc3,
    bne_iff_ne, show ¬ (t1 + delay ≤ t2) from by omega,
    show ¬ (t2 + delay ≤ t3) from by omega]

/-- C4 witness: three edits at times 0, 400, 800 with a 1000 ms delay on
a clean session; the single autosave fires at 1800. -/
theorem c4_three_fast_edits_one_save_witness :
    sessionHi.autoSaveTimer = none ∧ (0 : Nat) ≤ 400 ∧ (400 : Nat) ≤ 800 ∧
    (400 : Nat) < 0 + 1000 ∧ (800 : Nat) < 400 + 1000 ∧
    "a" ≠ sessionHi.originalContent ∧ "ab" ≠ sessionHi.originalContent ∧
    "abc" ≠ sessionHi.originalContent ∧
    (editSequenceFires true 1000 [(0, "a"), (400, "ab"), (800, "abc")] sessionHi).2
      = [800 + 1000] :=
  ⟨rfl, by decide, by decide, by decide, by decide, by decide, by decide, by decide,
   c4_three_fast_edits_one_save 1000 0 400 800 "a" "ab" "abc" sessionHi rfl
     (by decide) (by decide) (by decide) (by decide) (by decide) (by decide) (by decide)⟩

/-- C10: if `load()` fails (unsuccessful result or no content), the
session keeps its previous content, last-saved content, checksum, dirty
flag and metadata; only the error is set and the loading flag cleared. -/
theorem c10_failed_load_preserves_data
    (s : FileSessionState) (r : ReadFileResponse)
    (h : r.success = false ∨ r.content = none) :
    load s r = { s with loading := false
                        error := some (r.error.getD "Failed to load file") } := by
  rcases r with ⟨su, co, ck, er⟩
  rcases h with h | h
  · subst h
    simp [load]
  · subst h
    cases su <;> simp [load]

/-- C10 witness: a failed re-read of `sessionHi` keeps its data. -/
theorem c10_failed_load_preserves_data_witness :
    ((⟨false, none, none, some "read failed"⟩ : ReadFileResponse).success = false ∨
      (⟨false, none, none, some "read failed"⟩ : ReadFileResponse).content = none) ∧
    load sessionHi ⟨false, none, none, some "read failed"⟩
      = { sessionHi with loading := false
                         error := some ((⟨false, none, none, some "read failed"⟩ :
                           ReadFileResponse).error.getD "Failed to load file") } :=
  ⟨Or.inl rfl,
   c10_failed_load_preserves_data sessionHi ⟨false, none, none, some "read failed"⟩
     (Or.inl rfl)⟩

/-- C6 counterexample: a `reload()` whose re-fetch fails leaves a dirty,
conflicted session dirty and conflicted — so dirty and the conflict
indication are not both false after every `reload()`. -/
theorem c6_reload_counterexample :
    (reload conflictedSession ⟨false, none, none, some "read failed"⟩).isDirty = true ∧
    (reload conflictedSession ⟨false, none, none, some "read failed"⟩).error
      = some conflictMessage := by
  decide

/-- C6 (amended): after a `reload()` whose re-fetch succeeds, dirty is
false and the error/conflict indication is cleared, regardless of their
prior values; a `reload()` whose re-fetch fails or returns no content
leaves the session state entirely unchanged. -/
theorem c6_successful_reload_clears_flags
    (s : FileSessionState) (r rBad : ReadFileResponse) (c : String)
    (hs : r.success = true) (hc : r.content = some c)
    (hbad : rBad.success = false ∨ rBad.content = none) :
    (reload s r).isDirty = false ∧ (reload s r).error = none ∧
    reload s rBad = s := by
  refine ⟨?_, ?_, ?_⟩
  · simp [reload, hs, hc]
  · simp [reload, hs, hc]
  · rcases rBad with ⟨su, co, ck, er⟩
    rcases hbad with h | h
    · subst h
      simp [reload]
    · subst h
      cases su <;> simp [reload]

/-- C6 witness: a dirty, conflicted session reloaded successfully, and
the same session left untouched by a failed reload. -/
theorem c6_successful_reload_clears_flags_witness :
    (⟨true, some "fresh", some "c9", none⟩ : ReadFileResponse).success = true ∧
    (⟨true, some "fresh", some "c9", none⟩ : ReadFileResponse).content = some "fresh" ∧
    ((⟨false, none, none, some "x"⟩ : ReadFileResponse).success = false ∨
      (⟨false, none, none, some "x"⟩ : ReadFileResponse).content = none) ∧
    ((reload conflictedSession ⟨true, some "fresh", some "c9", none⟩).isDirty = false ∧
     (reload conflictedSession ⟨true, some "fresh", some "c9", none⟩).error = none ∧
     reload conflictedSession ⟨false, none, none, some "x"⟩ = conflictedSession) :=
  ⟨rfl, rfl, Or.inl rfl,
   c6_successful_reload_clears_flags conflictedSession
     ⟨true, some "fresh", some "c9", none⟩ ⟨false, none, none, some "x"⟩
     "fresh" rfl rfl (Or.inl rfl)⟩

/-- C9 counterexample: a `save()` whose round trip overlapped a later
`edit()` clears the dirty flag although the current content differs from
the adopted last-saved content — the dirty-iff-modified invariant does
not hold at every point between operations. -/
theorem c9_dirty_invariant_counterexample :
    overlappedSaveResult.isDirty = false ∧
    overlappedSaveResult.content ≠ overlappedSaveResult.originalContent := by
  decide

/-- C9 (amended): the dirty flag equals current-content ≠ last-saved
after every `edit()`; a non-dirty `save()` is a no-op that does not
contact the remote; and a successful save completion whose captured
content is still the current content re-establishes the invariant. An
edit overlapping an in-flight save is exactly the case the invariant
does not survive (see the counterexample). -/
theorem c9_dirty_iff_unless_overlapped
    (aSave : Bool) (d now : Nat) (s : FileSessionState) (c : String)
    (r : WriteFileResponse) :
    (((updateContent aSave d now s c).isDirty = true) ↔
      (updateContent aSave d now s c).content
        ≠ (updateContent aSave d now s c).originalContent)
    ∧ (s.isDirty = false → ∀ remote, save s remote =
        (s, { success := true, checksum := none, error := none, conflict := false }))
    ∧ (r.success = true →
        (saveApply s s.content r).isDirty = false ∧
        (saveApply s s.content r).content
          = (saveApply s s.content r).originalContent) := by
  refine ⟨?_, ?_, ?_⟩
  · unfold updateContent
    split <;> simp [bne_iff_ne]
  · intro h remote
    simp [save, h]
  · intro h
    simp [saveApply, h]

/-- C9 witness: the invariant facts at a concrete session, edit and
successful non-overlapped save completion. -/
theorem c9_dirty_iff_unless_overlapped_witness :
    (((updateContent true 1000 0 sessionHi "z").isDirty = true) ↔
      (updateContent true 1000 0 sessionHi "z").content
        ≠ (updateContent true 1000 0 sessionHi "z").originalContent)
    ∧ (sessionHi.isDirty = false → ∀ remote, save sessionHi remote =
        (sessionHi, { success := true, checksum := none, error := none, conflict := false }))
    ∧ ((⟨true, some "c2", none, false⟩ : WriteFileResponse).success = true →
        (saveApply sessionHi sessionHi.content ⟨true, some "c2", none, false⟩).isDirty = false ∧
        (saveApply sessionHi sessionHi.content ⟨true, some "c2", none, false⟩).content
          = (saveApply sessionHi sessionHi.content ⟨true, some "c2", none, false⟩).originalContent) :=
  c9_dirty_iff_unless_overlapped true 1000 0 sessionHi "z" ⟨true, some "c2", none, false⟩

/-- C2 counterexample: two concurrent `refresh()` calls whose responses
arrive out of order — the second call's response (`treeB`, `"k2"`) first,
the first call's stale response (`treeA`, `"k1"`) later. The cache ends
up holding the first call's result, not the second's: there is no
sequence guard. -/
theorem c2_stale_refresh_counterexample :
    (applyRefresh (applyRefresh treeInit treeRespB) treeRespA).tree = some treeA ∧
    (applyRefresh (applyRefresh treeInit treeRespB) treeRespA).checksum = "k1" ∧
    treeA ≠ treeB ∧ ("k1" : String) ≠ "k2" := by
  refine ⟨rfl, rfl, ?_, by decide⟩
  intro h
  simp only [treeA, treeB, FileTreeNode.node.injEq] at h
  exact absurd h.1 (by decide)

/-- C2 (amended): refresh completions apply last-writer-wins with no
sequence guard: the cache ends up holding the result of whichever
successful response was applied last, so when the second call's response
arrives first, the first call's later-arriving stale response overwrites
it. -/
theorem c2_refresh_last_writer_wins
    (st : TreeState) (rFirst rLast : FileTreeResponse) (t : FileTreeNode)
    (hs : rLast.success = true) (ht : rLast.tree = some t) :
    (applyRefresh (applyRefresh st rFirst) rLast).tree = some t ∧
    (applyRefresh (applyRefresh st rFirst) rLast).checksum
      = rLast.checksum.getD "" ∧
    (applyRefresh (applyRefresh st rFirst) rLast).checksumRef
      = rLast.checksum.getD "" := by
  refine ⟨?_, ?_, ?_⟩ <;>
    simp [applyRefresh, hs, ht]

/-- C2 witness: the out-of-order pair of responses, where the stale
first-call response `treeRespA` is the one applied last. -/
theorem c2_refresh_last_writer_wins_witness :
    treeRespA.success = true ∧ treeRespA.tree = some treeA ∧
    ((applyRefresh (applyRefresh treeInit treeRespB) treeRespA).tree = some treeA ∧
     (applyRefresh (applyRefresh treeInit treeRespB) treeRespA).checksum
       = treeRespA.checksum.getD "" ∧
     (applyRefresh (applyRefresh treeInit treeRespB) treeRespA).checksumRef
       = treeRespA.checksum.getD "") :=
  ⟨rfl, rfl, c2_refresh_last_writer_wins treeInit treeRespB treeRespA treeA rfl rfl⟩

/-- C5: in `auto` mode an SSE error closes the push channel and
transitions to polling, reporting only connectivity-false (no error
callback), and a single successful poll tick afterwards reports
connectivity true again — no `reconnect()` involved. -/
theorem c5_auto_fallback_then_poll_reconnects
    (s : WatcherState) (r : PollChangesResponse) (hr : r.success = true) :
    (handleSSEError WatcherMode.auto s).1.eventSourceOpen = false ∧
    (handleSSEError WatcherMode.auto s).1.usingSSE = false ∧
    (handleSSEError WatcherMode.auto s).1.pollTimerActive = true ∧
    (handleSSEError WatcherMode.auto s).1.connected = false ∧
    (handleSSEError WatcherMode.auto s).2 = [Callback.connectionChange false] ∧
    (handlePollComplete (PollOutcome.resp r)
      (handleSSEError WatcherMode.auto s).1).1.connected = true ∧
    (handlePollComplete (PollOutcome.resp r)
      (handleSSEError WatcherMode.auto s).1).2.head?
      = some (Callback.connectionChange true) := by
  refine ⟨rfl, rfl, rfl, rfl, rfl, ?_, ?_⟩ <;>
    simp [handlePollComplete, handleSSEError, startPolling, cleanup, hr]

/-- C5 witness: a connected SSE watcher degraded by an SSE error, then
one successful poll tick. -/
theorem c5_auto_fallback_then_poll_reconnects_witness :
    pollOk.success = true ∧
    ((handleSSEError WatcherMode.auto watcherSSE).1.eventSourceOpen = false ∧
     (handleSSEError WatcherMode.auto watcherSSE).1.usingSSE = false ∧
     (handleSSEError WatcherMode.auto watcherSSE).1.pollTimerActive = true ∧
     (handleSSEError WatcherMode.auto watcherSSE).1.connected = false ∧
     (handleSSEError WatcherMode.auto watcherSSE).2 = [Callback.connectionChange false] ∧
     (handlePollComplete (PollOutcome.resp pollOk)
       (handleSSEError WatcherMode.auto watcherSSE).1).1.connected = true ∧
     (handlePollComplete (PollOutcome.resp pollOk)
       (handleSSEError WatcherMode.auto watcherSSE).1).2.head?
       = some (Callback.connectionChange true)) :=
  ⟨rfl, c5_auto_fallback_then_poll_reconnects watcherSSE pollOk rfl⟩

/-- C7 counterexample: a poll tick that returns an unsuccessful result
(`success: false`) while the watcher is connected reports only an error;
connectivity-false is not reported — `connected` stays true and no
`onConnectionChange(false)` callback is delivered. -/
theorem c7_unsuccessful_poll_counterexample :
    (handlePollComplete (PollOutcome.resp pollFail) watcherPolling).1.connected = true ∧
    Callback.connectionChange false ∉
      (handlePollComplete (PollOutcome.resp pollFail) watcherPolling).2 := by
  decide

/-- C7 (amended): a poll tick whose round trip throws reports
connectivity-false and an error, leaving the cursor refs and the poll
interval untouched; a poll tick that merely returns an unsuccessful
result reports only the error, leaving connectivity, the cursor refs and
the interval untouched. In both cases the interval keeps running with
the cursor unadvanced. -/
theorem c7_poll_failure_reports
    (s : WatcherState) (r : PollChangesResponse) (m : String)
    (hr : r.success = false) :
    ((handlePollComplete (PollOutcome.resp r) s).1 = s ∧
     (handlePollComplete (PollOutcome.resp r) s).2
       = [Callback.error (r.error.getD "Polling failed")]) ∧
    ((handlePollComplete (PollOutcome.thrown m) s).1
       = { s with connected := false } ∧
     (handlePollComplete (PollOutcome.thrown m) s).2
       = [Callback.connectionChange false, Callback.error m]) := by
  refine ⟨⟨?_, ?_⟩, rfl, rfl⟩ <;>
    simp [handlePollComplete, hr]

/-- C7 witness: the two failure modes at a concrete connected watcher. -/
theorem c7_poll_failure_reports_witness :
    pollFail.success = false ∧
    (((handlePollComplete (PollOutcome.resp pollFail) watcherPolling).1 = watcherPolling ∧
      (handlePollComplete (PollOutcome.resp pollFail) watcherPolling).2
        = [Callback.error (pollFail.error.getD "Polling failed")]) ∧
     ((handlePollComplete (PollOutcome.thrown "net down") watcherPolling).1
        = { watcherPolling with connected := false } ∧
      (handlePollComplete (PollOutcome.thrown "net down") watcherPolling).2
        = [Callback.connectionChange false, Callback.error "net down"])) :=
  ⟨rfl, c7_poll_failure_reports watcherPolling pollFail "net down" rfl⟩

/-- C8 counterexample: a poll round trip in flight at teardown still runs
its completion handler afterwards — callbacks fire and the cursor refs
and connected flag are mutated, because the code has no teardown guard
after the `await`. -/
theorem c8_late_completion_counterexample :
    (watchRun alwaysLateResp watcherPolling
      [WatchEvent.fire, WatchEvent.teardown]).emitted = [] ∧
    (watchRun alwaysLateResp watcherPolling
      [WatchEvent.fire, WatchEvent.teardown]).state.pollTimerActive = false ∧
    (watchRun alwaysLateResp watcherPolling
      [WatchEvent.fire, WatchEvent.teardown, WatchEvent.complete 0]).emitted
      = [Callback.connectionChange true, Callback.fileChange lateChange] ∧
    (watchRun alwaysLateResp watcherPolling
      [WatchEvent.fire, WatchEvent.teardown, WatchEvent.complete 0]).state.lastChecksum
      = "c9" ∧
    (watchRun alwaysLateResp watcherPolling
      [WatchEvent.fire, WatchEvent.teardown]).state.lastChecksum = "c0" := by
  decide

/-- C8 (amended): `cleanup` clears the interval and closes the event
source, so after teardown no new poll tick fires and no SSE frame is
delivered; but a poll completion already in flight at teardown is not
discarded: it still delivers its callbacks and still mutates the cursor
refs and the connected flag. -/
theorem c8_teardown_releases_but_late_poll_applies
    (s : WatcherState) (o : Nat → PollOutcome) (run : WatchRun) (i : Nat)
    (e : FileChangeEvent) (r : PollChangesResponse)
    (hrun : run.state.pollTimerActive = false)
    (hrun2 : run.state.eventSourceOpen = false)
    (hr : r.success = true) :
    (cleanup s).pollTimerActive = false ∧
    (cleanup s).eventSourceOpen = false ∧
    watchStep o run WatchEvent.fire = run ∧
    watchStep o run (WatchEvent.sseChange e) = run ∧
    (handlePollComplete (PollOutcome.resp r) (cleanup s)).1.lastChecksum
      = r.current_checksum ∧
    (handlePollComplete (PollOutcome.resp r) (cleanup s)).1.lastTimestamp
      = r.timestamp ∧
    (handlePollComplete (PollOutcome.resp r) (cleanup s)).1.connected = true ∧
    (handlePollComplete (PollOutcome.resp r) (cleanup s)).2
      = Callback.connectionChange true :: r.changes.map Callback.fileChange := by
  refine ⟨rfl, rfl, ?_, ?_, ?_, ?_, ?_, ?_⟩ <;>
    simp [watchStep, handlePollComplete, hrun, hrun2, hr]

/-- C8 witness: the torn-down polling watcher with a late successful
completion. -/
theorem c8_teardown_releases_but_late_poll_applies_witness :
    (watchRun alwaysLateResp watcherPolling
        [WatchEvent.fire, WatchEvent.teardown]).state.pollTimerActive = false ∧
    (watchRun alwaysLateResp watcherPolling
        [WatchEvent.fire, WatchEvent.teardown]).state.eventSourceOpen = false ∧
    latePollResp.success = true ∧
    ((cleanup watcherPolling).pollTimerActive = false ∧
     (cleanup watcherPolling).eventSourceOpen = false ∧
     watchStep alwaysLateResp (watchRun alwaysLateResp watcherPolling
        [WatchEvent.fire, WatchEvent.teardown]) WatchEvent.fire
       = watchRun alwaysLateResp watcherPolling
           [WatchEvent.fire, WatchEvent.teardown] ∧
     watchStep alwaysLateResp (watchRun alwaysLateResp watcherPolling
        [WatchEvent.fire, WatchEvent.teardown]) (WatchEvent.sseChange lateChange)
       = watchRun alwaysLateResp watcherPolling
           [WatchEvent.fire, WatchEvent.teardown] ∧
     (handlePollComplete (PollOutcome.resp latePollResp)
        (cleanup watcherPolling)).1.lastChecksum = latePollResp.current_checksum ∧
     (handlePollComplete (PollOutcome.resp latePollResp)
        (cleanup watcherPolling)).1.lastTimestamp = latePollResp.timestamp ∧
     (handlePollComplete (PollOutcome.resp latePollResp)
        (cleanup watcherPolling)).1.connected = true ∧
     (handlePollComplete (PollOutcome.resp latePollResp)
        (cleanup watcherPolling)).2
       = Callback.connectionChange true :: latePollResp.changes.map Callback.fileChange) :=
  ⟨by decide, by decide, rfl,
   c8_teardown_releases_but_late_poll_applies watcherPolling alwaysLateResp
     (watchRun alwaysLateResp watcherPolling [WatchEvent.fire, WatchEvent.teardown])
     0 lateChange latePollResp (by decide) (by decide) rfl⟩

/-- Applying a poll completion never touches the poll interval
registration. -/
theorem handlePollComplete_pollTimerActive (o : PollOutcome) (s : WatcherState) :
    (handlePollComplete o s).1.pollTimerActive = s.pollTimerActive := by
  cases o with
  | resp r =>
      by_cases hr : r.success = true
      · simp [handlePollComplete, hr]
      · simp [handlePollComplete, hr]
  | thrown m => rfl

/-- The poll interval stays registered across any sequence of poll
completions applied in issue order. -/
theorem pollStateAfter_timerActive (o : Nat → PollOutcome) (init : WatcherState)
    (h : init.pollTimerActive = true) (n : Nat) :
    (pollStateAfter o init n).pollTimerActive = true := by
  induction n with
  | zero => exact h
  | succ n ih => rw [pollStateAfter, handlePollComplete_pollTimerActive]; exact ih

/-- Running the sequential (non-overlapping) schedule of `n` poll ticks:
the watcher state is the issue-order fold of the completions, and the
cursor sent with tick `i` is the cursor the state held after the first
`i` completions. -/
theorem watchRun_seqTrace (o : Nat → PollOutcome) (init : WatcherState)
    (h : init.pollTimerActive = true) (n : Nat) :
    (watchRun o init (seqTrace n)).state = pollStateAfter o init n ∧
    (watchRun o init (seqTrace n)).sent
      = (List.range n).map (fun i => sentOf (pollStateAfter o init i)) := by
  induction n with
  | zero => exact ⟨rfl, rfl⟩
  | succ n ih =>
      have hact : (pollStateAfter o init n).pollTimerActive = true :=
        pollStateAfter_timerActive o init h n
      have hrw : watchRun o init (seqTrace (n + 1))
          = watchStep o (watchStep o (watchRun o init (seqTrace n)) WatchEvent.fire)
              (WatchEvent.complete n) := by
        rw [seqTrace, watchRun, List.foldl_append]
        rfl
      rw [hrw]
      rw [show watchStep o (watchRun o init (seqTrace n)) WatchEvent.fire
            = { watchRun o init (seqTrace n) with
                  sent := (watchRun o init (seqTrace n)).sent
                    ++ [sentOf (watchRun o init (seqTrace n)).state] } by
        simp [watchStep, ih.1, hact]]
      refine ⟨?_, ?_⟩
      · simp [watchStep, ih.1, pollStateAfter]
      · simp [watchStep, ih.1, ih.2, List.range_succ]

/-- C3 counterexample: two overlapping ticks — tick 1 fires while tick 0
(which succeeds, returning cursor `("t1", "c1")`) is still outstanding.
Tick 1's request carries the initial cursor `("t0", "c0")`, not the
cursor returned by tick 0, so ordered cursor advancement fails under
overlap. -/
theorem c3_overlapping_ticks_counterexample :
    pollFailed (alwaysPollOk 0) = false ∧
    (watchRun alwaysPollOk watcherPolling
      [WatchEvent.fire, WatchEvent.fire, WatchEvent.complete 0]).sent[1]?
      = some (some "t0", some "c0") ∧
    ((some "t0", some "c0") : Option String × Option String)
      ≠ (orUndefined pollOk.timestamp, orUndefined pollOk.current_checksum) := by
  decide

/-- C3 (amended): under the sequential schedule — each tick's round trip
completes before the next tick fires — the cursor sent with tick `n + 1`
equals the `(timestamp, current_checksum)` returned by tick `n` when
tick `n` succeeded, and equals the cursor sent with tick `n` when tick
`n` failed. Under overlapping ticks the property fails (see the
counterexample): ticks are not processed in send order. -/
theorem c3_sequential_cursor_advancement
    (o : Nat → PollOutcome) (init : WatcherState) (n : Nat)
    (r : PollChangesResponse) (h : init.pollTimerActive = true) :
    (o n = PollOutcome.resp r → r.success = true →
      (watchRun o init (seqTrace (n + 2))).sent[n + 1]?
        = some (orUndefined r.timestamp, orUndefined r.current_checksum)) ∧
    (pollFailed (o n) = true →
      (watchRun o init (seqTrace (n + 2))).sent[n + 1]?
        = (watchRun o init (seqTrace (n + 2))).sent[n]?) := by
  have hsent := (watchRun_seqTrace o init h (n + 2)).2
  have hget : ∀ m, m < n + 2 →
      (watchRun o init (seqTrace (n + 2))).sent[m]?
        = some (sentOf (pollStateAfter o init m)) := by
    intro m hm
    rw [hsent, List.getElem?_map, List.getElem?_range hm]
    rfl
  constructor
  · intro ho hr
    rw [hget (n + 1) (by omega)]
    rw [show pollStateAfter o init (n + 1)
          = (handlePollComplete (o n) (pollStateAfter o init n)).1 from rfl]
    rw [ho]
    simp [handlePollComplete, hr, sentOf]
  · intro hf
    rw [hget (n + 1) (by omega), hget n (by omega)]
    rw [show pollStateAfter o init (n + 1)
          = (handlePollComplete (o n) (pollStateAfter o init n)).1 from rfl]
    cases ho : o n with
    | resp rr =>
        rw [ho] at hf
        have : rr.success = false := by
          simpa [pollFailed] using hf
        simp [handlePollComplete, this, sentOf]
    | thrown m =>
        simp [handlePollComplete, sentOf]

/-- C3 witness: two sequential ticks against a watcher whose first tick
succeeds with cursor `("t1", "c1")`. -/
theorem c3_sequential_cursor_advancement_witness :
    watcherPolling.pollTimerActive = true ∧
    ((alwaysPollOk 0 = PollOutcome.resp pollOk → pollOk.success = true →
      (watchRun alwaysPollOk watcherPolling (seqTrace (0 + 2))).sent[0 + 1]?
        = some (orUndefined pollOk.timestamp, orUndefined pollOk.current_checksum)) ∧
     (pollFailed (alwaysPollOk 0) = true →
      (watchRun alwaysPollOk watcherPolling (seqTrace (0 + 2))).sent[0 + 1]?
        = (watchRun alwaysPollOk watcherPolling (seqTrace (0 + 2))).sent[0]?)) :=
  ⟨rfl, c3_sequential_cursor_advancement alwaysPollOk watcherPolling 0 pollOk rfl⟩
